import Mathlib

/-!
Verification of the notes create/delete/list flow of the `supanext`
repository (`src/app/notes/actions.ts`, `src/app/notes/page.tsx`).

The server actions `addNote` and `deleteNote` are thin wrappers over an
external Supabase store.  The actions' control flow (the falsy-title guard,
awaiting the store request, discarding its response, calling
`revalidatePath("/notes")`) is embedded from the source; the store itself
is an external collaborator not present in the repository, so its
single-table insert / delete-by-id / select-all semantics is modelled from
the spec (a `notes` table whose `id` column is generated by the store).

A store request in JavaScript either rejects its promise (a thrown
failure, `await` re-raises it) or resolves to a response object whose
`error` field may be non-null.  We represent that choice explicitly as a
`MutOutcome` input to each action.
-/

/-- A row of the external `notes` table: `id` (store-generated text),
`title` (text), `description` (text, nullable), `created_at` (timestamp,
abstracted as a natural number). -/
structure Note where
  id : String
  title : String
  description : Option String
  created_at : Nat
deriving Repr, DecidableEq

/-- Modelled from the spec: the external data store holding the `notes`
table.  `rows` is the table content; `nextId` feeds the store's identifier
generator (the spec leaves the generation scheme opaque; we use a counter
rendered as text). -/
structure NotesStore where
  rows : List Note
  nextId : Nat
deriving Repr, DecidableEq

/-- Modelled from the spec: the store-side identifier generator. -/
def storeGenId (n : Nat) : String := "note-" ++ toString n

/-- Modelled from the spec: a successful insert appends one row with a
store-assigned identifier and the caller-supplied fields. -/
def storeInsert (s : NotesStore) (title : String) (description : Option String)
    (createdAt : Nat) : NotesStore :=
  { rows := s.rows ++
      [{ id := storeGenId s.nextId, title := title, description := description,
         created_at := createdAt }]
    nextId := s.nextId + 1 }

/-- Modelled from the spec: a successful delete-by-id removes every row
whose `id` matches (a silent no-op when none does). -/
def storeDelete (s : NotesStore) (id : String) : NotesStore :=
  { s with rows := s.rows.filter (fun n => n.id ≠ id) }

/-- Modelled from the spec: select-all returns the full table content. -/
def storeSelect (s : NotesStore) : List Note := s.rows

/-- Outcome of one store request, chosen by the environment:
the promise rejects (`thrown`), or it resolves with a possibly non-null
`error` field (`resolved`). -/
inductive MutOutcome where
  | thrown (msg : String)
  | resolved (err : Option String)
deriving Repr, DecidableEq

/-- Modelled from the spec: issuing the insert request against the store.
A thrown failure propagates; a resolved request yields the new store state
(unchanged when the store reports an error) together with the response's
`error` field. -/
def storeInsertReq (s : NotesStore) (title : String) (description : Option String)
    (createdAt : Nat) : MutOutcome → Except String (NotesStore × Option String)
  | MutOutcome.thrown msg => Except.error msg
  | MutOutcome.resolved none => Except.ok (storeInsert s title description createdAt, none)
  | MutOutcome.resolved (some e) => Except.ok (s, some e)

/-- Modelled from the spec: issuing the delete-by-id request against the
store, with the same outcome handling as `storeInsertReq`. -/
def storeDeleteReq (s : NotesStore) (id : String) :
    MutOutcome → Except String (NotesStore × Option String)
  | MutOutcome.thrown msg => Except.error msg
  | MutOutcome.resolved none => Except.ok (storeDelete s id, none)
  | MutOutcome.resolved (some e) => Except.ok (s, some e)

/-- The `FormData` read by `addNote`: `formData.get` returns the field's
text or `null` when the field is absent. -/
structure FormData where
  title : Option String
  description : Option String
deriving Repr, DecidableEq

/-- JavaScript falsiness of a `formData.get` result, as tested by
`if (!title)`: true exactly for `null` and the empty string. -/
def jsFalsyStr : Option String → Bool
  | none => true
  | some s => s = ""

/-- Observable effect of a completed server action: the resulting store
state and whether `revalidatePath("/notes")` was called. -/
structure ActionEffect where
  store : NotesStore
  revalidated : Bool
deriving Repr, DecidableEq

/-- Embedding of `addNote` (src/app/notes/actions.ts, lines 6-23): read
`title` and `description` from the form, stamp `createdAt`, return early
when the title is falsy, otherwise issue the insert (discarding the
response) and revalidate the notes path.  A thrown store failure
propagates as `Except.error`. -/
def addNote (s : NotesStore) (form : FormData) (now : Nat) (outcome : MutOutcome) :
    Except String ActionEffect :=
  let title := form.title
  let description := form.description
  let createdAt := now
  if jsFalsyStr title then
    Except.ok { store := s, revalidated := false }
  else
    match storeInsertReq s (title.getD "") description createdAt outcome with
    | Except.error e => Except.error e
    | Except.ok (s', _resp) => Except.ok { store := s', revalidated := true }

/-- Embedding of `deleteNote` (src/app/notes/actions.ts, lines 25-30):
issue the delete-by-id request (discarding the response) and revalidate
the notes path.  A thrown store failure propagates as `Except.error`. -/
def deleteNote (s : NotesStore) (id : String) (outcome : MutOutcome) :
    Except String ActionEffect :=
  match storeDeleteReq s id outcome with
  | Except.error e => Except.error e
  | Except.ok (s', _resp) => Except.ok { store := s', revalidated := true }

/-- A rendered note card of `NotesContent` (src/app/notes/page.tsx): keyed
by the note's id, showing its title and description. -/
structure NoteCard where
  key : String
  title : String
  description : Option String
deriving Repr, DecidableEq

/-- How `NotesContent` renders one note. -/
def noteCard (n : Note) : NoteCard :=
  { key := n.id, title := n.title, description := n.description }

/-- What `NotesContent` renders: the list of cards and whether the
"No notes yet" message is shown. -/
structure RenderedNotes where
  cards : List NoteCard
  emptyMessage : Bool
deriving Repr, DecidableEq

/-- Embedding of `NotesContent` (src/app/notes/page.tsx, lines 13-40):
`notes?.map(...)` renders one card per fetched row (nothing when the
fetched `data` is null), and the empty message is shown exactly when
`!notes || notes.length === 0`. -/
def NotesContent (data : Option (List Note)) : RenderedNotes :=
  { cards := (data.getD []).map noteCard
    emptyMessage := data.isNone || (data.getD []).isEmpty }

/-- The listing read path: `supabase.from("notes").select()` destructured
to its `data` field, which is the full table content on success. -/
def listNotes (s : NotesStore) : Option (List Note) :=
  some (storeSelect s)

/-- The complete mutating interface exported by
src/app/notes/actions.ts: creation and deletion only. -/
inductive AppOp where
  | create (form : FormData) (now : Nat)
  | delete (id : String)
deriving Repr, DecidableEq

/-- Dispatch one application operation. -/
def applyOp (s : NotesStore) : AppOp → MutOutcome → Except String ActionEffect
  | AppOp.create form now, o => addNote s form now o
  | AppOp.delete id, o => deleteNote s id o

/-- A concrete two-row store used to exercise the theorems. -/
def sampleStore2 : NotesStore :=
  { rows := [{ id := "a", title := "t1", description := none, created_at := 0 },
             { id := "b", title := "t2", description := none, created_at := 1 }],
    nextId := 2 }

/-- A concrete one-row store used to exercise the theorems. -/
def sampleStore1 : NotesStore :=
  { rows := [{ id := "a", title := "t1", description := none, created_at := 0 }],
    nextId := 1 }

/-! ## Claim theorems -/

/-- C1: for every creation request with a non-empty title `T` and
description `D`, `addNote` appends exactly one record with title `T`,
description `D`, and the caller-stamped timestamp; the identifier is
assigned by the store (it is a function of the store state alone, not of
the form) and is non-empty; a subsequent listing holds exactly one
additional record, namely that one. -/
theorem addNote_appends_one (s : NotesStore) (form : FormData) (now : Nat)
    (T D : String) (hT : form.title = some T) (hD : form.description = some D)
    (hne : T ≠ "") :
    addNote s form now (MutOutcome.resolved none) =
      Except.ok
        { store :=
            { rows := s.rows ++
                [{ id := storeGenId s.nextId, title := T, description := some D,
                   created_at := now }]
              nextId := s.nextId + 1 }
          revalidated := true }
      ∧ storeGenId s.nextId ≠ ""
      ∧ (listNotes (storeInsert s T (some D) now)).getD [] =
          (listNotes s).getD [] ++
            [{ id := storeGenId s.nextId, title := T, description := some D,
               created_at := now }] := by
  refine ⟨?_, ?_, ?_⟩
  · simp [addNote, hT, hD, jsFalsyStr, hne, storeInsertReq, storeInsert]
  · intro h
    have hlen := congrArg String.length h
    rw [storeGenId, String.length_append] at hlen
    have h5 : ("note-" : String).length = 5 := rfl
    have h0 : ("" : String).length = 0 := rfl
    omega
  · simp [listNotes, storeSelect, storeInsert]

/-- Witness for `addNote_appends_one` at a concrete store and form. -/
theorem addNote_appends_one_witness :
    addNote { rows := [], nextId := 0 }
        { title := some "A", description := some "B" } 5
        (MutOutcome.resolved none) =
      Except.ok
        { store :=
            { rows := [{ id := storeGenId 0, title := "A", description := some "B",
                         created_at := 5 }]
              nextId := 1 }
          revalidated := true }
      ∧ storeGenId 0 ≠ ""
      ∧ (listNotes (storeInsert { rows := [], nextId := 0 } "A" (some "B") 5)).getD [] =
          (listNotes { rows := [], nextId := 0 }).getD [] ++
            [{ id := storeGenId 0, title := "A", description := some "B",
               created_at := 5 }] := by
  have h := addNote_appends_one { rows := [], nextId := 0 }
    { title := some "A", description := some "B" } 5 "A" "B" rfl rfl (by decide)
  simpa using h

/-- C2: for every creation request whose title is absent or empty,
`addNote` returns without effect for every store outcome: the store is
unchanged, no revalidation happens, and no error is signalled. -/
theorem addNote_falsy_title_noop (s : NotesStore) (form : FormData) (now : Nat)
    (o : MutOutcome) (h : form.title = none ∨ form.title = some "") :
    addNote s form now o = Except.ok { store := s, revalidated := false } := by
  rcases h with h | h <;> simp [addNote, h, jsFalsyStr]

/-- Witness for `addNote_falsy_title_noop` at an empty-string title. -/
theorem addNote_falsy_title_noop_witness :
    addNote { rows := [], nextId := 0 }
        { title := some "", description := some "B" } 5
        (MutOutcome.resolved none) =
      Except.ok { store := { rows := [], nextId := 0 }, revalidated := false } :=
  addNote_falsy_title_noop { rows := [], nextId := 0 }
    { title := some "", description := some "B" } 5
    (MutOutcome.resolved none) (Or.inr rfl)

/-- C3: a thrown store failure is not caught by either action: when the
insert or delete request rejects, `addNote` (past its title guard) and
`deleteNote` both propagate the failure unchanged to the caller. -/
theorem actions_propagate_thrown (s : NotesStore) (form : FormData) (now : Nat)
    (id msg : String) (hne : jsFalsyStr form.title = false) :
    addNote s form now (MutOutcome.thrown msg) = Except.error msg
    ∧ deleteNote s id (MutOutcome.thrown msg) = Except.error msg := by
  constructor
  · simp [addNote, hne, storeInsertReq]
  · simp [deleteNote, storeDeleteReq]

/-- Witness for `actions_propagate_thrown` at a concrete form and id. -/
theorem actions_propagate_thrown_witness :
    addNote { rows := [], nextId := 0 }
        { title := some "A", description := none } 5
        (MutOutcome.thrown "boom") = Except.error "boom"
    ∧ deleteNote { rows := [], nextId := 0 } "x"
        (MutOutcome.thrown "boom") = Except.error "boom" :=
  actions_propagate_thrown { rows := [], nextId := 0 }
    { title := some "A", description := none } 5 "x" "boom" (by decide)

/-- Helper: removing the rows matching a present identifier from a table
with pairwise-distinct identifiers drops exactly one row. -/
theorem length_filter_ne_id (l : List Note) (I : String)
    (hmem : I ∈ l.map Note.id) (hnodup : (l.map Note.id).Nodup) :
    (l.filter (fun n => n.id ≠ I)).length + 1 = l.length := by
  induction l with
  | nil => simp at hmem
  | cons a l ih =>
    simp only [List.map_cons, List.nodup_cons] at hnodup
    by_cases ha : a.id = I
    · have hne' : ∀ n ∈ l, ¬ n.id = I := by
        intro n hn hnI
        exact hnodup.1 (by rw [ha, ← hnI]; exact List.mem_map_of_mem Note.id hn)
      have hall : l.filter (fun n => n.id ≠ I) = l :=
        List.filter_eq_self.mpr (fun n hn => by simp [hne' n hn])
      rw [List.filter_cons, if_neg (by simp [ha]), hall, List.length_cons]
    · have hmem' : I ∈ l.map Note.id := by
        simp only [List.map_cons, List.mem_cons] at hmem
        rcases hmem with h | h
        · exact absurd h.symm ha
        · exact h
      have ihh := ih hmem' hnodup.2
      rw [List.filter_cons, if_pos (by simp [ha]), List.length_cons, List.length_cons]
      omega

/-- C4: deleting an identifier present in the listing removes exactly the
record carrying that identifier: the operation completes without error,
every other record survives unchanged, every surviving record was already
present and does not carry the identifier, and the row count drops by
exactly one. -/
theorem deleteNote_removes_exactly (s : NotesStore) (I : String)
    (hmem : I ∈ s.rows.map Note.id) (hnodup : (s.rows.map Note.id).Nodup) :
    ∃ eff, deleteNote s I (MutOutcome.resolved none) = Except.ok eff
      ∧ (∀ n ∈ s.rows, n.id ≠ I → n ∈ eff.store.rows)
      ∧ (∀ n ∈ eff.store.rows, n ∈ s.rows ∧ n.id ≠ I)
      ∧ eff.store.rows.length + 1 = s.rows.length := by
  refine ⟨{ store := storeDelete s I, revalidated := true }, rfl, ?_, ?_, ?_⟩
  · intro n hn hne
    simp [storeDelete, List.mem_filter, hn, hne]
  · intro n hn
    simp only [storeDelete, List.mem_filter, ne_eq, decide_eq_true_eq] at hn
    exact ⟨hn.1, hn.2⟩
  · exact length_filter_ne_id s.rows I hmem hnodup

/-- Witness for `deleteNote_removes_exactly` on a two-row store. -/
theorem deleteNote_removes_exactly_witness :
    ∃ eff, deleteNote sampleStore2 "a" (MutOutcome.resolved none) = Except.ok eff
      ∧ (∀ n ∈ sampleStore2.rows, n.id ≠ "a" → n ∈ eff.store.rows)
      ∧ (∀ n ∈ eff.store.rows, n ∈ sampleStore2.rows ∧ n.id ≠ "a")
      ∧ eff.store.rows.length + 1 = sampleStore2.rows.length :=
  deleteNote_removes_exactly sampleStore2 "a" (by decide) (by decide)

/-- C5: deleting an identifier not present in the listing leaves the note
collection unchanged and signals no error: the request completes with the
store exactly as before. -/
theorem deleteNote_absent_id_noop (s : NotesStore) (I : String)
    (hnot : I ∉ s.rows.map Note.id) :
    deleteNote s I (MutOutcome.resolved none) =
      Except.ok { store := s, revalidated := true } := by
  obtain ⟨rows, nextId⟩ := s
  have hall : rows.filter (fun n => n.id ≠ I) = rows := by
    apply List.filter_eq_self.mpr
    intro n hn
    have hnI : ¬ n.id = I := by
      intro hnI
      exact hnot (by rw [← hnI]; exact List.mem_map_of_mem Note.id hn)
    simp [hnI]
  simp only [deleteNote, storeDeleteReq, storeDelete]
  rw [hall]

/-- Witness for `deleteNote_absent_id_noop` on a one-row store. -/
theorem deleteNote_absent_id_noop_witness :
    deleteNote sampleStore1 "zzz" (MutOutcome.resolved none) =
      Except.ok { store := sampleStore1, revalidated := true } :=
  deleteNote_absent_id_noop sampleStore1 "zzz" (by decide)

/-- C6: every completed create past the title guard and every completed
delete ends with the notes path revalidated, so the next listing re-fetches
the mutated store instead of serving a stale cached view. -/
theorem completed_mutations_revalidate (s t : NotesStore) (form : FormData)
    (now : Nat) (I : String) (o o' : MutOutcome) (eff eff' : ActionEffect)
    (hne : jsFalsyStr form.title = false)
    (hadd : addNote s form now o = Except.ok eff)
    (hdel : deleteNote t I o' = Except.ok eff') :
    eff.revalidated = true ∧ eff'.revalidated = true := by
  constructor
  · cases o with
    | thrown msg => simp [addNote, hne, storeInsertReq] at hadd
    | resolved err =>
      cases err with
      | none =>
        simp [addNote, hne, storeInsertReq] at hadd
        rw [← hadd]
      | some e =>
        simp [addNote, hne, storeInsertReq] at hadd
        rw [← hadd]
  · cases o' with
    | thrown msg => simp [deleteNote, storeDeleteReq] at hdel
    | resolved err =>
      cases err with
      | none =>
        simp [deleteNote, storeDeleteReq] at hdel
        rw [← hdel]
      | some e =>
        simp [deleteNote, storeDeleteReq] at hdel
        rw [← hdel]

/-- Witness for `completed_mutations_revalidate` at concrete mutations. -/
theorem completed_mutations_revalidate_witness :
    ({ store := storeInsert { rows := [], nextId := 0 } "A" (some "B") 5,
       revalidated := true } : ActionEffect).revalidated = true
    ∧ ({ store := storeDelete { rows := [], nextId := 0 } "x",
         revalidated := true } : ActionEffect).revalidated = true :=
  completed_mutations_revalidate { rows := [], nextId := 0 }
    { rows := [], nextId := 0 }
    { title := some "A", description := some "B" } 5 "x"
    (MutOutcome.resolved none) (MutOutcome.resolved none) _ _
    (by decide) rfl rfl

/-- C7: the listing takes no input beyond the ambient store and renders
the full current collection — one card per row, in store order, with no
pagination, filtering, or sorting — and with zero notes present it renders
an empty collection plus the empty-state message rather than an error. -/
theorem listing_renders_full_collection (s : NotesStore) :
    (NotesContent (listNotes s)).cards = s.rows.map noteCard
    ∧ (NotesContent (listNotes s)).cards.length = s.rows.length
    ∧ (s.rows = [] →
        NotesContent (listNotes s) = { cards := [], emptyMessage := true }) := by
  refine ⟨?_, ?_, ?_⟩
  · simp [NotesContent, listNotes, storeSelect]
  · simp [NotesContent, listNotes, storeSelect]
  · intro h
    simp [NotesContent, listNotes, storeSelect, h]

/-- Witness for `listing_renders_full_collection` on the empty store. -/
theorem listing_renders_full_collection_witness :
    (NotesContent (listNotes { rows := [], nextId := 0 })).cards =
        (([] : List Note).map noteCard)
    ∧ (NotesContent (listNotes { rows := [], nextId := 0 })).cards.length =
        ([] : List Note).length
    ∧ (([] : List Note) = [] →
        NotesContent (listNotes { rows := [], nextId := 0 }) =
          { cards := [], emptyMessage := true }) :=
  listing_renders_full_collection { rows := [], nextId := 0 }

/-- C8: the exported mutating interface consists of creation and deletion
only, and neither ever rewrites an existing record: for every operation
that completes, any surviving record carrying the identifier of a
pre-existing record is that record unchanged — id, title, description and
created_at included.  (The hypotheses say the store's identifiers are
pairwise distinct and the freshly generated one is new, which is the
store's identifier-generation contract.) -/
theorem notes_immutable_no_update (s : NotesStore) (op : AppOp) (o : MutOutcome)
    (eff : ActionEffect)
    (hnodup : (s.rows.map Note.id).Nodup)
    (hfresh : storeGenId s.nextId ∉ s.rows.map Note.id)
    (hok : applyOp s op o = Except.ok eff) :
    ∀ n ∈ s.rows, ∀ n' ∈ eff.store.rows, n'.id = n.id → n' = n := by
  intro n hn n' hn' hid
  have hinj := List.inj_on_of_nodup_map hnodup
  have hold : n' ∈ s.rows → n' = n := fun h => hinj h hn hid
  cases op with
  | create form now =>
    cases hguard : jsFalsyStr form.title with
    | true =>
      simp only [applyOp, addNote, hguard, if_true] at hok
      injection hok with hok
      subst hok
      exact hold hn'
    | false =>
      cases o with
      | thrown msg =>
        simp [applyOp, addNote, hguard, storeInsertReq] at hok
      | resolved err =>
        cases err with
        | none =>
          simp only [applyOp, addNote, hguard, storeInsertReq, Bool.false_eq_true,
            if_false] at hok
          injection hok with hok
          subst hok
          simp only [storeInsert, List.mem_append, List.mem_singleton] at hn'
          rcases hn' with h | h
          · exact hold h
          · exfalso
            apply hfresh
            have : n'.id = storeGenId s.nextId := by rw [h]
            rw [← this, hid]
            exact List.mem_map_of_mem Note.id hn
        | some e =>
          simp only [applyOp, addNote, hguard, storeInsertReq, Bool.false_eq_true,
            if_false] at hok
          injection hok with hok
          subst hok
          exact hold hn'
  | delete I =>
    cases o with
    | thrown msg =>
      simp [applyOp, deleteNote, storeDeleteReq] at hok
    | resolved err =>
      cases err with
      | none =>
        simp only [applyOp, deleteNote, storeDeleteReq] at hok
        injection hok with hok
        subst hok
        simp only [storeDelete, List.mem_filter] at hn'
        exact hold hn'.1
      | some e =>
        simp only [applyOp, deleteNote, storeDeleteReq] at hok
        injection hok with hok
        subst hok
        exact hold hn'

/-- Witness for `notes_immutable_no_update`: after deleting "b" from the
two-row sample store, the surviving record keyed "a" is the original
record unchanged. -/
theorem notes_immutable_no_update_witness :
    ({ id := "a", title := "t1", description := none, created_at := 0 } : Note) =
      { id := "a", title := "t1", description := none, created_at := 0 } :=
  notes_immutable_no_update sampleStore2 (AppOp.delete "b")
    (MutOutcome.resolved none)
    { store := storeDelete sampleStore2 "b", revalidated := true }
    (by decide) (by decide) rfl
    { id := "a", title := "t1", description := none, created_at := 0 } (by decide)
    { id := "a", title := "t1", description := none, created_at := 0 } (by decide)
    rfl

/-- C9: the guard rejects only a missing or empty title, so a non-empty
whitespace-only title passes it: the record is inserted with that title
and the cache is invalidated. -/
theorem addNote_whitespace_title_inserts (s : NotesStore) (form : FormData)
    (now : Nat) (T : String) (hT : form.title = some T)
    (_hws : ∀ c ∈ T.data, c.isWhitespace = true) (hne : T ≠ "") :
    jsFalsyStr form.title = false
    ∧ addNote s form now (MutOutcome.resolved none) =
        Except.ok { store := storeInsert s T form.description now,
                    revalidated := true } := by
  have hfalsy : jsFalsyStr form.title = false := by simp [jsFalsyStr, hT, hne]
  refine ⟨hfalsy, ?_⟩
  simp [addNote, hT, jsFalsyStr, hne, storeInsertReq]

/-- Witness for `addNote_whitespace_title_inserts` at a single-space
title. -/
theorem addNote_whitespace_title_inserts_witness :
    jsFalsyStr (some " ") = false
    ∧ addNote { rows := [], nextId := 0 }
        { title := some " ", description := some "B" } 5
        (MutOutcome.resolved none) =
      Except.ok { store := storeInsert { rows := [], nextId := 0 } " " (some "B") 5,
                  revalidated := true } :=
  addNote_whitespace_title_inserts { rows := [], nextId := 0 }
    { title := some " ", description := some "B" } 5 " " rfl (by decide) (by decide)

/-- C10: when the store resolves a mutation request with a non-null error
result, both actions discard it: they return normally (no failure reaches
the caller) and still revalidate the notes path, unconditionally on the
mutation having succeeded. -/
theorem store_error_result_discarded (s t : NotesStore) (form : FormData)
    (now : Nat) (I msg : String) (hne : jsFalsyStr form.title = false) :
    addNote s form now (MutOutcome.resolved (some msg)) =
      Except.ok { store := s, revalidated := true }
    ∧ deleteNote t I (MutOutcome.resolved (some msg)) =
      Except.ok { store := t, revalidated := true } := by
  constructor
  · simp [addNote, hne, storeInsertReq]
  · simp [deleteNote, storeDeleteReq]

/-- Witness for `store_error_result_discarded` at a concrete failed
insert and failed delete. -/
theorem store_error_result_discarded_witness :
    addNote sampleStore1 { title := some "A", description := none } 5
        (MutOutcome.resolved (some "duplicate key")) =
      Except.ok { store := sampleStore1, revalidated := true }
    ∧ deleteNote sampleStore2 "a" (MutOutcome.resolved (some "permission denied")) =
      Except.ok { store := sampleStore2, revalidated := true } :=
  store_error_result_discarded sampleStore1 sampleStore2
    { title := some "A", description := none } 5 "a" "permission denied" (by decide)
